import Mathlib

/-!
# Shallow embedding of the lage two-tier build cache

This file embeds, in Lean, the two cache providers of the repository:

* `CloudflareR2CacheProvider` (src/packages/cache — the object-storage
  remote tier, with its `TimeoutStream` download guard), and
* `RemoteFallbackCacheProvider` (the fallback orchestrator with its two
  process-wide LRU hit-record tables).

External effects (the S3-compatible object store, the filesystem `stat`
calls, the tar pack/extract collaborator and the download byte stream)
are modelled as explicit oracle records passed to each operation, and
each operation additionally returns a trace recording which backend
requests it issued, so that "never consults the remote" style properties
become statements about the trace.

JavaScript truthiness that the source relies on is modelled explicitly:
an optional number is truthy when it is `some n` with `n ≠ 0`, an
optional boolean record value read back from an LRU table is collapsed
with `Option.getD false` exactly where the source writes `x || false` or
`!x`.
-/

namespace Lage

/-- JS truthiness of an optional number (`if (maxSize)`,
`headResponse.ContentLength && ...`): present and nonzero. -/
def truthyNat : Option Nat → Bool
  | some n => n != 0
  | none => false

/-! ## LRU hit-record tables

`RemoteFallbackCacheProvider` keeps two static `LRUCache<string, boolean>`
tables (`localHits`, `remoteHits`, `max: 10000`).  The `lru-cache`
collaborator is modelled as a list of entries in most-recently-used-first
order together with the configured maximum: `set` moves the key to the
front and truncates to the maximum, `get` returns the stored value and
moves the key to the front.  The TTL configured on the real tables is not
modelled; no claim here depends on entries expiring. -/

structure LRU where
  max : Nat
  entries : List (String × Bool)
deriving Repr, DecidableEq

/-- Model of `cache.set(k, v)`: insert `k ↦ v` as most recently used, dropping any
previous entry for `k`, then evict from the least-recently-used end until
the configured maximum is respected. -/
def lruSet (c : LRU) (k : String) (v : Bool) : LRU :=
  { c with entries := ((k, v) :: c.entries.filter (fun e => e.1 != k)).take c.max }

/-- Model of `cache.get(k)`: the stored value, if any, together with the table
after the recency bump that `lru-cache` performs on a successful get. -/
def lruGet (c : LRU) (k : String) : Option Bool × LRU :=
  match c.entries.find? (fun e => e.1 == k) with
  | none => (none, c)
  | some e => (some e.2, { c with entries := (k, e.2) :: c.entries.filter (fun x => x.1 != k) })

/-- Model of `cache.clear()`. -/
def lruClear (c : LRU) : LRU :=
  { c with entries := [] }

/-- The keys of a table, most recently used first. -/
def lruKeys (c : LRU) : List String :=
  c.entries.map (fun e => e.1)

/-- Folding `set` over a list of key/value pairs. -/
def lruSetMany (c : LRU) (ps : List (String × Bool)) : LRU :=
  ps.foldl (fun acc p => lruSet acc p.1 p.2) c

/-- The configured maximum of the two hit-record tables in the source
(`max: 10000`). -/
def HitRecordMax : Nat := 10000

/-! ## Targets -/

/-- The caller-supplied target: an identifier, a working directory and an
optional list of output glob patterns (`target.outputs` may be absent in
TypeScript; the provider substitutes the match-everything glob). -/
structure Target where
  id : String
  cwd : String
  outputs : Option (List String)
deriving Repr, DecidableEq

/-! ## CloudflareR2CacheProvider -/

/-- The options of the provider that the embedded operations read
(`bucket` is only threaded into requests, `maxSize` gates the size
checks; endpoint/credentials configure the client and are irrelevant to
the embedded control flow). -/
structure R2Options where
  bucket : String
  maxSize : Option Nat
deriving Repr, DecidableEq

/-- Errors raised by the S3-compatible backend, as the source
distinguishes them in its catch handler: a `NoSuchKey` named error, an
HTTP 404 status, or anything else. -/
inductive S3Err where
  | noSuchKey
  | http404
  | other (msg : String)
deriving Repr, DecidableEq

/-- A download body stream, described by the arrival times (ms since the
transfer started) of its data chunks and by the time at which the stream
signals end-of-stream (`none`: the stream stalls forever). -/
structure BodyStream where
  chunks : List Nat
  endsAt : Option Nat
deriving Repr, DecidableEq

/-- The `TimeoutStream` state: the destroy timer is armed with its deadline
at construction; the first `_transform`ed chunk clears it. -/
inductive TSState where
  | armed (deadline : Nat)
  | disarmed
deriving Repr, DecidableEq

/-- One chunk arriving at time `t`: if the timer is still armed and its
deadline has already passed, the stream was destroyed with the timeout
error (`none`); otherwise the chunk clears the timer. -/
def tsStep : TSState → Nat → Option TSState
  | .armed d, t => if d ≤ t then none else some .disarmed
  | .disarmed, _ => some .disarmed

/-- Run the `TimeoutStream` over the chunk arrivals in order. -/
def tsRunAux : TSState → List Nat → Option TSState
  | s, [] => some s
  | s, t :: ts =>
    match tsStep s t with
    | none => none
    | some s2 => tsRunAux s2 ts

/-- Whether the guarded pipeline is aborted by the timeout: either a
chunk arrives only after the deadline passed, or no chunk ever clears
the timer and the stream does not end before the deadline either. -/
def tsAborted (timeoutMs : Nat) (b : BodyStream) : Bool :=
  match tsRunAux (.armed timeoutMs) b.chunks with
  | none => true
  | some .disarmed => false
  | some (.armed d) =>
    match b.endsAt with
    | none => true
    | some te => d ≤ te

/-- The fixed timeout of the download guard: `10 * 60 * 1000` ms. -/
def TIMEOUT_MS : Nat := 10 * 60 * 1000

/-- Backend oracle for one `fetch` call: the outcome of the
`HeadObjectCommand` (the optional `ContentLength`), the outcome of the
`GetObjectCommand` (the optional `Body` stream), and whether the tar
extraction of the downloaded archive succeeds. -/
structure FetchEnv where
  headResp : Except S3Err (Option Nat)
  getResp : Except S3Err (Option BodyStream)
  extractOk : Bool

/-- Which backend requests one `fetch` call issued. -/
structure FetchTrace where
  headSent : Bool := false
  getSent : Bool := false
deriving Repr, DecidableEq

/-- The check `headResponse.ContentLength && headResponse.ContentLength > maxSize`:
the reported length is truthy (present, nonzero) and exceeds the
configured maximum. -/
def clExceeds (cl : Option Nat) (m : Nat) : Bool :=
  match cl with
  | none => false
  | some c => c != 0 && m < c

namespace CloudflareR2CacheProvider

/-- The download half of `fetch`'s try block: issue the
`GetObjectCommand`, throw when the response has no body, pipe the body
through the `TimeoutStream` into the tar extractor. -/
def fetchGet (env : FetchEnv) (hash : String) (tr : FetchTrace) :
    Except S3Err Bool × FetchTrace :=
  let tr2 : FetchTrace := { tr with getSent := true }
  match env.getResp with
  | .error e => (.error e, tr2)
  | .ok none => (.error (.other "No body in R2 response"), tr2)
  | .ok (some body) =>
    if tsAborted TIMEOUT_MS body then
      (.error (.other ("R2 fetch request for " ++ hash ++ " timed out")), tr2)
    else if env.extractOk then (.ok true, tr2)
    else (.error (.other "extract failed"), tr2)

/-- The try block of `fetch`: when `maxSize` is truthy, first probe the
object size with `HeadObjectCommand` and report a miss when the reported
length exceeds it; otherwise (or after a passing probe) download. -/
def fetchTry (opts : R2Options) (env : FetchEnv) (hash : String) :
    Except S3Err Bool × FetchTrace :=
  if truthyNat opts.maxSize then
    match env.headResp with
    | .error e => (.error e, { headSent := true })
    | .ok cl =>
      if clExceeds cl (opts.maxSize.getD 0) then (.ok false, { headSent := true })
      else fetchGet env hash { headSent := true }
  else fetchGet env hash {}

/-- Model of `CloudflareR2CacheProvider.fetch`: empty hash is an immediate miss
with no request; every error of the try block (not-found, 404 and any
other backend error alike) is caught and reported as `false`. -/
def fetch (opts : R2Options) (env : FetchEnv) (hash : String) :
    Bool × FetchTrace :=
  if hash = "" then (false, {})
  else
    match fetchTry opts env hash with
    | (.ok b, tr) => (b, tr)
    | (.error _, tr) => (false, tr)

/-- Model of `path.resolve(target.cwd, glob)` as the source uses it: a literal
path under the working directory (no glob expansion). -/
def pathResolve (cwd glob : String) : String := cwd ++ "/" ++ glob

/-- Filesystem oracle and backend oracle for one `put` call:
`fileSize p` is `some n` when the literal path `p` exists (`existsSync`)
with `stat` size `n`, and `putResp` is the outcome of the
`PutObjectCommand`. -/
structure PutEnv where
  fileSize : String → Option Nat
  putResp : Except S3Err Unit

/-- Whether one `put` call issued the `PutObjectCommand`. -/
structure PutTrace where
  putSent : Bool := false
deriving Repr, DecidableEq

/-- The size estimate of `put`: for each output glob, resolve it as a
literal path and add its `stat` size when that path exists. -/
def totalEstimate (fileSize : String → Option Nat) (cwd : String)
    (globs : List String) : Nat :=
  globs.foldl (fun acc g => acc + ((fileSize (pathResolve cwd g)).getD 0)) 0

/-- The try block of `put`: default the output globs, skip the upload
when a truthy `maxSize` is exceeded by the size estimate, otherwise pack
and issue the `PutObjectCommand`. -/
def putTry (opts : R2Options) (env : PutEnv) (target : Target) :
    Except S3Err Unit × PutTrace :=
  let outputGlob := target.outputs.getD ["**/*"]
  let upload : Except S3Err Unit × PutTrace :=
    match env.putResp with
    | .ok _ => (.ok (), { putSent := true })
    | .error e => (.error e, { putSent := true })
  if truthyNat opts.maxSize then
    if opts.maxSize.getD 0 < totalEstimate env.fileSize target.cwd outputGlob then
      (.ok (), {})
    else upload
  else upload

/-- Model of `CloudflareR2CacheProvider.put`: empty hash returns immediately; the
catch handler swallows every error of the try block, so `put` always
resolves, returning only its request trace. -/
def put (opts : R2Options) (env : PutEnv) (hash : String) (target : Target) :
    PutTrace :=
  if hash = "" then {}
  else (putTry opts env target).2

end CloudflareR2CacheProvider

/-! ## RemoteFallbackCacheProvider -/

/-- The behaviour of a configured tier provider for the duration of one
orchestrator call: what its `fetch(hash, target)` resolves to. -/
structure ProviderBeh where
  fetchResult : Bool
deriving Repr, DecidableEq

/-- The orchestrator's options: an optional local provider, an optional
remote provider, and the write-remote flag (absent in TypeScript is
falsy, collapsed to `false` here). -/
structure FBEnv where
  localProvider : Option ProviderBeh
  remoteProvider : Option ProviderBeh
  writeRemoteCache : Bool

/-- The two process-wide hit-record tables. -/
structure FBState where
  localHits : LRU
  remoteHits : LRU
deriving Repr, DecidableEq

/-- The tier calls one orchestrator operation performed, as counts. -/
structure FBEvents where
  localFetch : Nat := 0
  remoteFetch : Nat := 0
  localPut : Nat := 0
  remotePut : Nat := 0
deriving Repr, DecidableEq

namespace RemoteFallbackCacheProvider

/-- Step 1 of `fetch`: when a local provider is configured, call its
`fetch` and record the boolean result in the local hit table. -/
def fetchStep1 (env : FBEnv) (s : FBState) (hash : String) :
    FBState × FBEvents :=
  match env.localProvider with
  | some lp =>
    ({ s with localHits := lruSet s.localHits hash lp.fetchResult },
     { localFetch := 1 })
  | none => (s, {})

/-- Model of `RemoteFallbackCacheProvider.fetch`: consult the local tier and
record the result; re-read the local hit table; on a falsy local record
with a remote provider configured, consult the remote tier, record the
result, seed the local tier via its `put` on a remote hit, and return
the remote result; otherwise return `localHit || false`. -/
def fetch (env : FBEnv) (s : FBState) (hash : String) :
    Bool × FBState × FBEvents :=
  let step1 := fetchStep1 env s hash
  let s1 := step1.1
  let ev1 := step1.2
  let g := lruGet s1.localHits hash
  let localHit := g.1.getD false
  let s2 : FBState := { s1 with localHits := g.2 }
  match env.remoteProvider, localHit with
  | some rp, false =>
    let s3 : FBState := { s2 with remoteHits := lruSet s2.remoteHits hash rp.fetchResult }
    let lput := if env.localProvider.isSome && rp.fetchResult then 1 else 0
    (rp.fetchResult, s3, { ev1 with remoteFetch := 1, localPut := lput })
  | _, _ => (localHit, s2, ev1)

/-- Model of `RemoteFallbackCacheProvider.put`: write the local tier unless the
local hit table already marks the hash as a hit; write the remote tier
only when the remote hit table does not mark it, a remote provider is
configured and the write-remote flag is enabled. -/
def put (env : FBEnv) (s : FBState) (hash : String) :
    FBState × FBEvents :=
  let gl := lruGet s.localHits hash
  let s1 : FBState := { s with localHits := gl.2 }
  let shouldWriteLocalCache := !(gl.1.getD false) && env.localProvider.isSome
  let gr := lruGet s1.remoteHits hash
  let s2 : FBState := { s1 with remoteHits := gr.2 }
  let shouldWriteRemoteCache :=
    !(gr.1.getD false) && env.remoteProvider.isSome && env.writeRemoteCache
  (s2,
   { localPut := if shouldWriteLocalCache then 1 else 0,
     remotePut := if shouldWriteRemoteCache then 1 else 0 })

/-- Model of `RemoteFallbackCacheProvider.clear`: empty both hit tables (the
delegation to the local provider's `clear` has no bearing on the tables). -/
def clear (s : FBState) : FBState :=
  { localHits := lruClear s.localHits, remoteHits := lruClear s.remoteHits }

/-- A sequence of `fetch` calls, threading the hit-table state. -/
def fetchMany (env : FBEnv) (s : FBState) (hashes : List String) : FBState :=
  hashes.foldl (fun acc h => (fetch env acc h).2.1) s

end RemoteFallbackCacheProvider

/-- Both hit-record tables respect their configured maxima. -/
def FBInv (s : FBState) : Prop :=
  s.localHits.entries.length ≤ s.localHits.max ∧
  s.remoteHits.entries.length ≤ s.remoteHits.max

/-- A capacity-3 orchestrator configuration used to exhibit the LRU
eviction order: a local provider whose fetch always hits. -/
def fbExampleEnv : FBEnv :=
  { localProvider := some ⟨true⟩, remoteProvider := none, writeRemoteCache := false }

/-- Fresh hit-record tables of capacity 3. -/
def fbExampleState : FBState :=
  { localHits := ⟨3, []⟩, remoteHits := ⟨3, []⟩ }

/-! ## Basic table lemmas -/

theorem lruSet_max (c : LRU) (k : String) (v : Bool) : (lruSet c k v).max = c.max := rfl

theorem lruSet_length_le (c : LRU) (k : String) (v : Bool) :
    (lruSet c k v).entries.length ≤ c.max := by
  simp [lruSet]

theorem lruGet_max (c : LRU) (k : String) : ((lruGet c k).2).max = c.max := by
  unfold lruGet
  split <;> rfl

theorem find?_filter_length {l : List (String × Bool)} {k : String} {e : String × Bool}
    (h : l.find? (fun x => x.1 == k) = some e) :
    (l.filter (fun x => x.1 != k)).length + 1 ≤ l.length := by
  induction l with
  | nil => simp at h
  | cons a t ih =>
    cases hpa : (a.1 == k) with
    | true =>
      have hf : List.filter (fun x => x.1 != k) (a :: t) = t.filter (fun x => x.1 != k) := by
        simp [List.filter_cons, bne, hpa]
      rw [hf]
      have h2 := List.length_filter_le (fun x => x.1 != k) t
      simp only [List.length_cons]
      omega
    | false =>
      have h2 : t.find? (fun x => x.1 == k) = some e := by
        simpa [List.find?_cons, hpa] using h
      have hf : List.filter (fun x => x.1 != k) (a :: t)
          = a :: t.filter (fun x => x.1 != k) := by
        simp [List.filter_cons, bne, hpa]
      rw [hf]
      simp only [List.length_cons]
      exact Nat.succ_le_succ (ih h2)

theorem lruGet_length_le (c : LRU) (k : String) :
    ((lruGet c k).2).entries.length ≤ c.entries.length := by
  unfold lruGet
  cases h : c.entries.find? (fun x => x.1 == k) with
  | none => simp
  | some e =>
    simpa using find?_filter_length h

theorem lruGet_lruSet_self (c : LRU) (k : String) (v : Bool) (h : 1 ≤ c.max) :
    (lruGet (lruSet c k v) k).1 = some v := by
  obtain ⟨n, hn⟩ : ∃ n, c.max = n + 1 := ⟨c.max - 1, by omega⟩
  simp [lruGet, lruSet, hn, List.take_succ_cons, List.find?_cons_of_pos]

/-! ## Orchestrator invariant lemmas -/

theorem fetchStep1_inv (env : FBEnv) (s : FBState) (hash : String) (h : FBInv s) :
    FBInv (RemoteFallbackCacheProvider.fetchStep1 env s hash).1 := by
  unfold RemoteFallbackCacheProvider.fetchStep1
  cases env.localProvider with
  | none => exact h
  | some lp => exact ⟨lruSet_length_le _ _ _, h.2⟩

theorem fetch_inv (env : FBEnv) (s : FBState) (hash : String) (h : FBInv s) :
    FBInv (RemoteFallbackCacheProvider.fetch env s hash).2.1 := by
  have h1 := fetchStep1_inv env s hash h
  unfold RemoteFallbackCacheProvider.fetch
  set s1 := (RemoteFallbackCacheProvider.fetchStep1 env s hash).1 with hs1
  have h2 : FBInv { s1 with localHits := (lruGet s1.localHits hash).2 } := by
    refine ⟨?_, h1.2⟩
    calc ((lruGet s1.localHits hash).2).entries.length
        ≤ s1.localHits.entries.length := lruGet_length_le _ _
      _ ≤ s1.localHits.max := h1.1
      _ = ((lruGet s1.localHits hash).2).max := (lruGet_max _ _).symm
  dsimp only
  split
  · exact ⟨h2.1, lruSet_length_le _ _ _⟩
  · exact h2

theorem fetchMany_inv (env : FBEnv) (s : FBState) (hashes : List String) (h : FBInv s) :
    FBInv (RemoteFallbackCacheProvider.fetchMany env s hashes) := by
  induction hashes generalizing s with
  | nil => exact h
  | cons a t ih => exact ih _ (fetch_inv env s a h)

/-! ## Size-estimate and timeout lemmas -/

theorem totalEstimate_nil_sizes (fileSize : String → Option Nat) (cwd : String)
    (globs : List String)
    (h : ∀ g ∈ globs, fileSize (CloudflareR2CacheProvider.pathResolve cwd g) = none) :
    CloudflareR2CacheProvider.totalEstimate fileSize cwd globs = 0 := by
  unfold CloudflareR2CacheProvider.totalEstimate
  have haux : ∀ acc, globs.foldl
      (fun acc g => acc + ((fileSize (CloudflareR2CacheProvider.pathResolve cwd g)).getD 0)) acc
      = acc := by
    induction globs with
    | nil => intro acc; rfl
    | cons a t ih =>
      intro acc
      have ha := h a (List.mem_cons_self a t)
      simp only [List.foldl_cons, ha, Option.getD_none, Nat.add_zero]
      exact ih (fun g hg => h g (List.mem_cons_of_mem a hg)) acc
  exact haux 0

theorem tsRunAux_disarmed (ts : List Nat) : tsRunAux .disarmed ts = some .disarmed := by
  induction ts with
  | nil => rfl
  | cons t rest ih => simpa [tsRunAux, tsStep] using ih

/-- When every `ok` outcome of the try block is `false`, the catch-all
makes `fetch` report `false`. -/
theorem fetch_false_of_try_ok_false (opts : R2Options) (env : FetchEnv) (hash : String)
    (h : ∀ b, (CloudflareR2CacheProvider.fetchTry opts env hash).1 = Except.ok b → b = false) :
    (CloudflareR2CacheProvider.fetch opts env hash).1 = false := by
  by_cases hh : hash = ""
  · simp [CloudflareR2CacheProvider.fetch, hh]
  · unfold CloudflareR2CacheProvider.fetch
    rw [if_neg hh]
    split
    · next b tr heq => exact h b (by rw [heq])
    · next e tr heq => rfl

/-- With a failing `GetObjectCommand`, the try block can only produce
`ok false` (via the size-probe short circuit). -/
theorem fetchTry_ok_false_of_get_error (opts : R2Options) (env : FetchEnv) (hash : String)
    (e : S3Err) (hg : env.getResp = .error e) :
    ∀ b, (CloudflareR2CacheProvider.fetchTry opts env hash).1 = Except.ok b → b = false := by
  intro b hb
  unfold CloudflareR2CacheProvider.fetchTry CloudflareR2CacheProvider.fetchGet at hb
  rw [hg] at hb
  split at hb
  · split at hb
    · simp at hb
    · split at hb
      · simp at hb
        exact hb
      · simp at hb
  · simp at hb

/-- With a timed-out download body, the try block can only produce
`ok false` (via the size-probe short circuit). -/
theorem fetchTry_ok_false_of_abort (opts : R2Options) (env : FetchEnv) (hash : String)
    (body : BodyStream) (hg : env.getResp = .ok (some body))
    (ha : tsAborted TIMEOUT_MS body = true) :
    ∀ b, (CloudflareR2CacheProvider.fetchTry opts env hash).1 = Except.ok b → b = false := by
  intro b hb
  unfold CloudflareR2CacheProvider.fetchTry CloudflareR2CacheProvider.fetchGet at hb
  rw [hg] at hb
  split at hb
  · split at hb
    · simp at hb
    · split at hb
      · simp at hb
        exact hb
      · simp [ha] at hb
  · simp [ha] at hb

/-! ## Claim theorems -/

/-- Claim C6: for every target and tier configuration, `fetch` with the
empty-string key returns `false` and `put` with the empty-string key
returns without effect, and neither issues any object-store request. -/
theorem claim_C6_empty_key_noop (opts : R2Options) (env : FetchEnv) (penv : CloudflareR2CacheProvider.PutEnv)
    (target : Target) :
    CloudflareR2CacheProvider.fetch opts env ""
      = (false, { headSent := false, getSent := false }) ∧
    CloudflareR2CacheProvider.put opts penv "" target = { putSent := false } := by
  constructor <;> rfl

/-- Claim C5: with a truthy configured maximum size `m` and a metadata
probe reporting a size `c` exceeding `m`, `fetch` returns `false` having
issued only the metadata request, no download. -/
theorem claim_C5_fetch_oversize_probe (opts : R2Options) (env : FetchEnv) (hash : String)
    (m c : Nat) (h1 : hash ≠ "") (h2 : opts.maxSize = some m) (h3 : m ≠ 0)
    (h4 : env.headResp = .ok (some c)) (h5 : c ≠ 0) (h6 : m < c) :
    CloudflareR2CacheProvider.fetch opts env hash
      = (false, { headSent := true, getSent := false }) := by
  simp [CloudflareR2CacheProvider.fetch, CloudflareR2CacheProvider.fetchTry,
    h1, h2, h3, h4, h5, h6, truthyNat, clExceeds]

/-- Concrete instance of claim C5: probed size `2S` against maximum `S`. -/
theorem claim_C5_witness :
    CloudflareR2CacheProvider.fetch ⟨"test-bucket", some 1048576⟩
      ⟨.ok (some 2097152), .ok none, true⟩ "abc123hash"
      = (false, { headSent := true, getSent := false }) :=
  claim_C5_fetch_oversize_probe ⟨"test-bucket", some 1048576⟩
    ⟨.ok (some 2097152), .ok none, true⟩ "abc123hash" 1048576 2097152
    (by decide) rfl (by decide) rfl (by decide) (by decide)

/-- Claim C3: with a truthy configured maximum size `m` and a size
estimate exceeding `m`, `put` issues no upload and its try block returns
normally (nothing is thrown). -/
theorem claim_C3_put_oversize_skip (opts : R2Options) (penv : CloudflareR2CacheProvider.PutEnv)
    (hash : String) (target : Target) (m : Nat)
    (h1 : hash ≠ "") (h2 : opts.maxSize = some m) (h3 : m ≠ 0)
    (h4 : m < CloudflareR2CacheProvider.totalEstimate penv.fileSize target.cwd
        (target.outputs.getD ["**/*"])) :
    CloudflareR2CacheProvider.put opts penv hash target = { putSent := false } ∧
    (CloudflareR2CacheProvider.putTry opts penv target).1 = .ok () := by
  have ht : (CloudflareR2CacheProvider.putTry opts penv target)
      = (.ok (), { putSent := false }) := by
    simp [CloudflareR2CacheProvider.putTry, h2, h3, h4, truthyNat]
  constructor
  · simp [CloudflareR2CacheProvider.put, h1, ht]
  · simp [ht]

/-- Concrete instance of claim C3: two 600 KiB outputs against a 1 MiB
maximum. -/
theorem claim_C3_witness :
    CloudflareR2CacheProvider.put ⟨"test-bucket", some 1048576⟩
      ⟨fun _ => some 614400, .ok ()⟩ "abc123hash" ⟨"test-package", "/tmp/w", some ["lib/file1.js", "dist/file2.js"]⟩
      = { putSent := false } ∧
    (CloudflareR2CacheProvider.putTry ⟨"test-bucket", some 1048576⟩
      ⟨fun _ => some 614400, .ok ()⟩ ⟨"test-package", "/tmp/w", some ["lib/file1.js", "dist/file2.js"]⟩).1
      = .ok () :=
  claim_C3_put_oversize_skip ⟨"test-bucket", some 1048576⟩
    ⟨fun _ => some 614400, .ok ()⟩ "abc123hash"
    ⟨"test-package", "/tmp/w", some ["lib/file1.js", "dist/file2.js"]⟩ 1048576
    (by decide) rfl (by decide) (by decide)

/-- Claim C9: the size estimate of `put` only stats output globs that
exist as literal paths; when no output glob resolves to an existing
literal path the estimate is `0`, the size gate cannot trigger, and the
upload is issued. -/
theorem claim_C9_wildcard_estimate_zero (opts : R2Options) (penv : CloudflareR2CacheProvider.PutEnv)
    (hash : String) (target : Target) (m : Nat) (globs : List String)
    (h1 : hash ≠ "") (h2 : opts.maxSize = some m) (h3 : m ≠ 0)
    (h4 : target.outputs = some globs)
    (h5 : ∀ g ∈ globs, penv.fileSize (CloudflareR2CacheProvider.pathResolve target.cwd g) = none) :
    CloudflareR2CacheProvider.totalEstimate penv.fileSize target.cwd globs = 0 ∧
    (CloudflareR2CacheProvider.put opts penv hash target).putSent = true := by
  have hz := totalEstimate_nil_sizes penv.fileSize target.cwd globs h5
  refine ⟨hz, ?_⟩
  cases hp : penv.putResp with
  | ok u =>
    simp [CloudflareR2CacheProvider.put, CloudflareR2CacheProvider.putTry,
      h1, h2, h3, h4, hz, hp, truthyNat]
  | error e =>
    simp [CloudflareR2CacheProvider.put, CloudflareR2CacheProvider.putTry,
      h1, h2, h3, h4, hz, hp, truthyNat]

/-- Concrete instance of claim C9: wildcard-only outputs, none existing
as a literal path, with a configured maximum of 1 MiB. -/
theorem claim_C9_witness :
    CloudflareR2CacheProvider.totalEstimate (fun _ => none) "/tmp/w" ["lib/**/*", "dist/**/*"] = 0 ∧
    (CloudflareR2CacheProvider.put ⟨"test-bucket", some 1048576⟩
      ⟨fun _ => none, .ok ()⟩ "abc123hash" ⟨"test-package", "/tmp/w", some ["lib/**/*", "dist/**/*"]⟩).putSent
      = true :=
  claim_C9_wildcard_estimate_zero ⟨"test-bucket", some 1048576⟩
    ⟨fun _ => none, .ok ()⟩ "abc123hash"
    ⟨"test-package", "/tmp/w", some ["lib/**/*", "dist/**/*"]⟩ 1048576
    ["lib/**/*", "dist/**/*"]
    (by decide) rfl (by decide) rfl (fun g _ => rfl)

/-- Claim C4: with the write-remote flag disabled, the orchestrator's
`put` never issues a remote write, whatever the providers and the hit
tables hold. -/
theorem claim_C4_no_remote_write (env : FBEnv) (s : FBState) (hash : String)
    (h : env.writeRemoteCache = false) :
    (RemoteFallbackCacheProvider.put env s hash).2.remotePut = 0 := by
  simp [RemoteFallbackCacheProvider.put, h]

/-- Concrete instance of claim C4: remote provider configured, no
recorded remote hit, flag disabled. -/
theorem claim_C4_witness :
    (RemoteFallbackCacheProvider.put
      ⟨some ⟨false⟩, some ⟨true⟩, false⟩
      ⟨⟨10000, []⟩, ⟨10000, []⟩⟩ "abc123hash").2.remotePut = 0 :=
  claim_C4_no_remote_write _ _ _ rfl

/-- Claim C7: every backend error degrades to a miss or a swallowed
write: a failing download or a failing size probe makes `fetch` report
`false` (the universally quantified error covers `NoSuchKey`, HTTP 404
and any other failure alike), and when the try block of `put` raises,
`put` still resolves, returning only its request trace. -/
theorem claim_C7_errors_degrade (opts : R2Options) (env : FetchEnv)
    (penv : CloudflareR2CacheProvider.PutEnv) (hash : String) (target : Target) (e : S3Err) :
    (env.getResp = .error e → (CloudflareR2CacheProvider.fetch opts env hash).1 = false) ∧
    (truthyNat opts.maxSize = true → env.headResp = .error e →
      (CloudflareR2CacheProvider.fetch opts env hash).1 = false) ∧
    (hash ≠ "" → (CloudflareR2CacheProvider.putTry opts penv target).1 = .error e →
      CloudflareR2CacheProvider.put opts penv hash target
        = (CloudflareR2CacheProvider.putTry opts penv target).2) := by
  refine ⟨?_, ?_, ?_⟩
  · intro hg
    exact fetch_false_of_try_ok_false opts env hash
      (fetchTry_ok_false_of_get_error opts env hash e hg)
  · intro hm hhead
    by_cases hh : hash = ""
    · simp [CloudflareR2CacheProvider.fetch, hh]
    · simp [CloudflareR2CacheProvider.fetch, CloudflareR2CacheProvider.fetchTry,
        hh, hm, hhead]
  · intro hh _
    simp [CloudflareR2CacheProvider.put, hh]

/-- Concrete instance of claim C7: a `NoSuchKey` fetch error, an access
error on the size probe, and a failed upload. -/
theorem claim_C7_witness :
    (CloudflareR2CacheProvider.fetch ⟨"test-bucket", none⟩
      ⟨.ok none, .error .noSuchKey, true⟩ "abc123hash").1 = false ∧
    (CloudflareR2CacheProvider.fetch ⟨"test-bucket", some 1048576⟩
      ⟨.error (.other "Access denied"), .ok none, true⟩ "abc123hash").1 = false ∧
    CloudflareR2CacheProvider.put ⟨"test-bucket", none⟩
      ⟨fun _ => none, .error (.other "Upload failed")⟩ "abc123hash" ⟨"test-package", "/tmp/w", none⟩
      = (CloudflareR2CacheProvider.putTry ⟨"test-bucket", none⟩
          ⟨fun _ => none, .error (.other "Upload failed")⟩ ⟨"test-package", "/tmp/w", none⟩).2 :=
  ⟨(claim_C7_errors_degrade ⟨"test-bucket", none⟩
      ⟨.ok none, .error .noSuchKey, true⟩
      ⟨fun _ => none, .error (.other "Upload failed")⟩ "abc123hash"
      ⟨"test-package", "/tmp/w", none⟩ .noSuchKey).1 rfl,
   (claim_C7_errors_degrade ⟨"test-bucket", some 1048576⟩
      ⟨.error (.other "Access denied"), .ok none, true⟩
      ⟨fun _ => none, .error (.other "Upload failed")⟩ "abc123hash"
      ⟨"test-package", "/tmp/w", none⟩ (.other "Access denied")).2.1 rfl rfl,
   (claim_C7_errors_degrade ⟨"test-bucket", none⟩
      ⟨.ok none, .error .noSuchKey, true⟩
      ⟨fun _ => none, .error (.other "Upload failed")⟩ "abc123hash"
      ⟨"test-package", "/tmp/w", none⟩ (.other "Upload failed")).2.2 (by decide) rfl⟩

/-- Claim C1: with a local provider configured whose fetch hits, the
orchestrator's `fetch` returns `true` and the remote provider's fetch is
never invoked in that call. -/
theorem claim_C1_local_hit_skips_remote (env : FBEnv) (s : FBState) (hash : String)
    (lp : ProviderBeh) (h1 : env.localProvider = some lp) (h2 : lp.fetchResult = true)
    (h3 : 1 ≤ s.localHits.max) :
    (RemoteFallbackCacheProvider.fetch env s hash).1 = true ∧
    (RemoteFallbackCacheProvider.fetch env s hash).2.2.remoteFetch = 0 := by
  have hget := lruGet_lruSet_self s.localHits hash true h3
  cases hr : env.remoteProvider <;>
    constructor <;>
      simp [RemoteFallbackCacheProvider.fetch, RemoteFallbackCacheProvider.fetchStep1,
        h1, h2, hr, hget]

/-- Concrete instance of claim C1: both providers configured, the local
one hitting, fresh capacity-10000 tables. -/
theorem claim_C1_witness :
    (RemoteFallbackCacheProvider.fetch ⟨some ⟨true⟩, some ⟨true⟩, false⟩
      ⟨⟨10000, []⟩, ⟨10000, []⟩⟩ "abc123hash").1 = true ∧
    (RemoteFallbackCacheProvider.fetch ⟨some ⟨true⟩, some ⟨true⟩, false⟩
      ⟨⟨10000, []⟩, ⟨10000, []⟩⟩ "abc123hash").2.2.remoteFetch = 0 :=
  claim_C1_local_hit_skips_remote ⟨some ⟨true⟩, some ⟨true⟩, false⟩
    ⟨⟨10000, []⟩, ⟨10000, []⟩⟩ "abc123hash" ⟨true⟩ rfl rfl (by decide)

/-- Claim C2: when the local hit record read back after the local lookup
is falsy and the configured remote provider's fetch hits, the
orchestrator's `fetch` returns the remote hit `true` and invokes the
local provider's `put` exactly once (when a local provider is
configured; zero times otherwise). -/
theorem claim_C2_remote_hit_seeds_local (env : FBEnv) (s : FBState) (hash : String)
    (rp : ProviderBeh) (h1 : env.remoteProvider = some rp) (h2 : rp.fetchResult = true)
    (h3 : (lruGet (RemoteFallbackCacheProvider.fetchStep1 env s hash).1.localHits hash).1.getD false
      = false) :
    (RemoteFallbackCacheProvider.fetch env s hash).1 = true ∧
    (RemoteFallbackCacheProvider.fetch env s hash).2.2.localPut
      = (if env.localProvider.isSome then 1 else 0) := by
  constructor <;> simp [RemoteFallbackCacheProvider.fetch, h1, h2, h3]

/-- Concrete instance of claim C2: a local provider that misses and a
remote provider that hits, fresh capacity-10000 tables. -/
theorem claim_C2_witness :
    (RemoteFallbackCacheProvider.fetch ⟨some ⟨false⟩, some ⟨true⟩, false⟩
      ⟨⟨10000, []⟩, ⟨10000, []⟩⟩ "abc123hash").1 = true ∧
    (RemoteFallbackCacheProvider.fetch ⟨some ⟨false⟩, some ⟨true⟩, false⟩
      ⟨⟨10000, []⟩, ⟨10000, []⟩⟩ "abc123hash").2.2.localPut
      = (if (FBEnv.mk (some ⟨false⟩) (some ⟨true⟩) false).localProvider.isSome then 1 else 0) :=
  claim_C2_remote_hit_seeds_local ⟨some ⟨false⟩, some ⟨true⟩, false⟩
    ⟨⟨10000, []⟩, ⟨10000, []⟩⟩ "abc123hash" ⟨true⟩ rfl rfl (by decide)

/-- Claim C10: the download guard: a stalled body stream (no chunk and no
end-of-stream before the 10-minute deadline) trips the timeout, a tripped
timeout is caught by `fetch` and surfaces as a miss rather than an
exception, and a first chunk arriving before the deadline disarms the
timer so that no later chunk arrival time is constrained. -/
theorem claim_C10_timeout_guard (opts : R2Options) (env : FetchEnv) (hash : String)
    (body : BodyStream) (_h1 : hash ≠ "") (h2 : env.getResp = .ok (some body)) :
    ((∀ t ∈ body.chunks, TIMEOUT_MS ≤ t) →
      (∀ te, body.endsAt = some te → TIMEOUT_MS ≤ te) →
      tsAborted TIMEOUT_MS body = true) ∧
    (tsAborted TIMEOUT_MS body = true →
      (CloudflareR2CacheProvider.fetch opts env hash).1 = false) ∧
    (∀ t ts tEnd, t < TIMEOUT_MS → tsAborted TIMEOUT_MS ⟨t :: ts, tEnd⟩ = false) := by
  refine ⟨?_, ?_, ?_⟩
  · intro hc he
    cases hb : body.chunks with
    | nil =>
      cases hE : body.endsAt with
      | none => simp [tsAborted, tsRunAux, hb, hE]
      | some te => simp [tsAborted, tsRunAux, hb, hE, he te hE]
    | cons t ts =>
      have hT := hc t (by rw [hb]; exact List.mem_cons_self t ts)
      simp [tsAborted, tsRunAux, tsStep, hb, hT]
  · intro ha
    exact fetch_false_of_try_ok_false opts env hash
      (fetchTry_ok_false_of_abort opts env hash body h2 ha)
  · intro t ts tEnd hlt
    simp [tsAborted, tsRunAux, tsStep, Nat.not_le.mpr hlt, tsRunAux_disarmed]

/-- Concrete instance of claim C10: a body with no chunks that never
ends trips the timeout and yields a miss; a body whose first chunk
arrives at 5 ms is safe however late the rest arrives. -/
theorem claim_C10_witness :
    tsAborted TIMEOUT_MS ⟨[], none⟩ = true ∧
    (CloudflareR2CacheProvider.fetch ⟨"test-bucket", none⟩
      ⟨.ok none, .ok (some ⟨[], none⟩), true⟩ "abc123hash").1 = false ∧
    tsAborted TIMEOUT_MS ⟨[5, 999999999], none⟩ = false := by
  have h := claim_C10_timeout_guard ⟨"test-bucket", none⟩
    ⟨.ok none, .ok (some ⟨[], none⟩), true⟩ "abc123hash" ⟨[], none⟩ (by decide) rfl
  refine ⟨h.1 (by simp) (by simp), h.2.1 ?_, h.2.2 5 [999999999] none (by decide)⟩
  exact h.1 (by simp) (by simp)

/-- Claim C8: the hit-record tables stay within their configured maxima
across any sequence of orchestrator fetches, and eviction is
least-recently-used first: with capacity 3, fetching `k1..k5` in order
leaves exactly `k3, k4, k5` (most recent first), evicting `k1` and
`k2`. -/
theorem claim_C8_hitrecord_bounded (env : FBEnv) (s : FBState) (hashes : List String)
    (h : FBInv s) :
    FBInv (RemoteFallbackCacheProvider.fetchMany env s hashes) ∧
    lruKeys (RemoteFallbackCacheProvider.fetchMany fbExampleEnv fbExampleState
      ["k1", "k2", "k3", "k4", "k5"]).localHits = ["k5", "k4", "k3"] :=
  ⟨fetchMany_inv env s hashes h, by decide⟩

/-- Concrete instance of claim C8: a fetch sequence on fresh capacity-3
tables. -/
theorem claim_C8_witness :
    FBInv (RemoteFallbackCacheProvider.fetchMany fbExampleEnv fbExampleState
      ["k1", "k2", "k3", "k4", "k5"]) ∧
    lruKeys (RemoteFallbackCacheProvider.fetchMany fbExampleEnv fbExampleState
      ["k1", "k2", "k3", "k4", "k5"]).localHits = ["k5", "k4", "k3"] :=
  claim_C8_hitrecord_bounded fbExampleEnv fbExampleState
    ["k1", "k2", "k3", "k4", "k5"] ⟨by decide, by decide⟩

end Lage
